import Mathlib

/-
Verification of the task-model and task-stamping core of a sharded
workflow-orchestration engine, shallowly embedded from the Go sources:
  * service/history/tasks/child_workflow_task.go : StartChildExecutionTask
    and its Task-interface methods;
  * the sibling workflow package : convertSyncActivityInfos, setTaskInfo;
  * proto .../historyservice/v1/request_response.proto : ShardReplicationStatus.
Go `time.Time` values are embedded as integers (nanoseconds since the Unix
epoch), so `time.Unix(0, 0)` is the integer 0.  Go `int64`/`int32` are
embedded as `Int` (no arithmetic is performed on them here, so overflow
never matters).
-/

namespace Temporal

/-- Go `time.Time`, as nanoseconds since the Unix epoch. -/
abbrev GoTime := Int

/-- Modelled from the spec: `definition.WorkflowKey` (namespace ID,
workflow ID, run ID), immutable after creation; the `common/definition`
package itself is not among the files under review. -/
structure WorkflowKey where
  NamespaceID : String
  WorkflowID : String
  RunID : String
deriving DecidableEq, Repr

/-- The ordering key of a task, `tasks.Key{FireTime, TaskID}`; the field
names are those used by `StartChildExecutionTask.GetKey` in the source. -/
structure Key where
  FireTime : GoTime
  TaskID : Int
deriving DecidableEq, Repr

/-- Modelled from the spec: the processing type of a category,
`Immediate` vs `Scheduled` (the category registry is not among the files
under review). -/
inductive CategoryType where
  | Immediate
  | Scheduled
deriving DecidableEq, Repr

/-- Modelled from the spec: the fixed, well-known set of task categories
(Transfer, Timer, Visibility, Replication); the registry package is not
among the files under review, but `tasks.CategoryTransfer` and
`tasks.CategoryReplication` are referenced by the sources. -/
inductive Category where
  | Transfer
  | Timer
  | Visibility
  | Replication
deriving DecidableEq, Repr

/-- Modelled from the spec: `Category.Type()`.  Timer is the Scheduled
category; Transfer, Visibility and Replication are Immediate
("Replication is Immediate type"). -/
def Category.ctype : Category → CategoryType
  | .Timer => .Scheduled
  | _ => .Immediate

/-- `StartChildExecutionTask` exactly as declared in
`service/history/tasks/child_workflow_task.go`. -/
structure StartChildExecutionTask where
  WorkflowKey : WorkflowKey
  VisibilityTimestamp : GoTime
  TaskID : Int
  TargetNamespaceID : String
  TargetWorkflowID : String
  InitiatedID : Int
  Version : Int
deriving DecidableEq, Repr

/-- `func (u *StartChildExecutionTask) GetKey() Key`: FireTime is pinned to
`time.Unix(0, 0)` (the integer 0 in this embedding). -/
def StartChildExecutionTask.GetKey (u : StartChildExecutionTask) : Key :=
  { FireTime := 0, TaskID := u.TaskID }

/-- `func (u *StartChildExecutionTask) GetVersion() int64`. -/
def StartChildExecutionTask.GetVersion (u : StartChildExecutionTask) : Int :=
  u.Version

/-- `func (u *StartChildExecutionTask) SetVersion(version int64)`. -/
def StartChildExecutionTask.SetVersion (u : StartChildExecutionTask) (version : Int) :
    StartChildExecutionTask :=
  { u with Version := version }

/-- `func (u *StartChildExecutionTask) GetTaskID() int64`. -/
def StartChildExecutionTask.GetTaskID (u : StartChildExecutionTask) : Int :=
  u.TaskID

/-- `func (u *StartChildExecutionTask) SetTaskID(id int64)`. -/
def StartChildExecutionTask.SetTaskID (u : StartChildExecutionTask) (id : Int) :
    StartChildExecutionTask :=
  { u with TaskID := id }

/-- `func (u *StartChildExecutionTask) GetVisibilityTime() time.Time`. -/
def StartChildExecutionTask.GetVisibilityTime (u : StartChildExecutionTask) : GoTime :=
  u.VisibilityTimestamp

/-- `func (u *StartChildExecutionTask) SetVisibilityTime(timestamp time.Time)`. -/
def StartChildExecutionTask.SetVisibilityTime (u : StartChildExecutionTask)
    (timestamp : GoTime) : StartChildExecutionTask :=
  { u with VisibilityTimestamp := timestamp }

/-- `func (u *StartChildExecutionTask) GetCategory() Category`. -/
def StartChildExecutionTask.GetCategory (_ : StartChildExecutionTask) : Category :=
  Category.Transfer

/-- Modelled from the spec: the `SyncActivity` task variant
(`tasks.SyncActivityTask` is not among the files under review); its fields
are those set by `convertSyncActivityInfos` in the source plus the
`TaskID` every task carries; its category is Replication. -/
structure SyncActivityTask where
  WorkflowKey : WorkflowKey
  VisibilityTimestamp : GoTime
  TaskID : Int
  Version : Int
  ScheduledID : Int
deriving DecidableEq, Repr

/-- Modelled from the spec: the Timer-fire task variant, of the Scheduled
category Timer; its fire time lives in `VisibilityTimestamp`. -/
structure TimerTask where
  WorkflowKey : WorkflowKey
  VisibilityTimestamp : GoTime
  TaskID : Int
  Version : Int
  EventID : Int
deriving DecidableEq, Repr

/-- Modelled from the spec: the Replicate-events task variant of the
Replication category. -/
structure HistoryReplicationTask where
  WorkflowKey : WorkflowKey
  VisibilityTimestamp : GoTime
  TaskID : Int
  Version : Int
  FirstEventID : Int
  NextEventID : Int
deriving DecidableEq, Repr

/-- The `tasks.Task` interface, embedded as the closed sum of the task
variants appearing in the spec's data model; interface dispatch becomes a
match on the variant. -/
inductive Task where
  | startChild (u : StartChildExecutionTask)
  | syncActivity (u : SyncActivityTask)
  | timer (u : TimerTask)
  | historyReplication (u : HistoryReplicationTask)
deriving DecidableEq, Repr

/-- `Task.GetCategory()`: StartChildExecutionTask answers Transfer (from the
source); the other variants are modelled from the spec's category
assignment (SyncActivity and Replicate-events are Replication-category,
Timer-fire is Timer-category). -/
def Task.GetCategory : Task → Category
  | .startChild u => u.GetCategory
  | .syncActivity _ => Category.Replication
  | .timer _ => Category.Timer
  | .historyReplication _ => Category.Replication

/-- `Task.GetVersion()`: every variant returns its `Version` field. -/
def Task.GetVersion : Task → Int
  | .startChild u => u.GetVersion
  | .syncActivity u => u.Version
  | .timer u => u.Version
  | .historyReplication u => u.Version

/-- `Task.SetVersion(version)`: per the contract, mutates only the
`Version` field of the variant (StartChildExecutionTask's method is from
the source; the others are modelled from the spec's contract). -/
def Task.SetVersion : Task → Int → Task
  | .startChild u, version => .startChild (u.SetVersion version)
  | .syncActivity u, version => .syncActivity { u with Version := version }
  | .timer u, version => .timer { u with Version := version }
  | .historyReplication u, version => .historyReplication { u with Version := version }

/-- `Task.GetTaskID()`. -/
def Task.GetTaskID : Task → Int
  | .startChild u => u.GetTaskID
  | .syncActivity u => u.TaskID
  | .timer u => u.TaskID
  | .historyReplication u => u.TaskID

/-- `Task.SetTaskID(id)`: mutates only the `TaskID` field. -/
def Task.SetTaskID : Task → Int → Task
  | .startChild u, id => .startChild (u.SetTaskID id)
  | .syncActivity u, id => .syncActivity { u with TaskID := id }
  | .timer u, id => .timer { u with TaskID := id }
  | .historyReplication u, id => .historyReplication { u with TaskID := id }

/-- `Task.GetVisibilityTime()`. -/
def Task.GetVisibilityTime : Task → GoTime
  | .startChild u => u.GetVisibilityTime
  | .syncActivity u => u.VisibilityTimestamp
  | .timer u => u.VisibilityTimestamp
  | .historyReplication u => u.VisibilityTimestamp

/-- `Task.SetVisibilityTime(timestamp)`: mutates only the
`VisibilityTimestamp` field. -/
def Task.SetVisibilityTime : Task → GoTime → Task
  | .startChild u, timestamp => .startChild (u.SetVisibilityTime timestamp)
  | .syncActivity u, timestamp => .syncActivity { u with VisibilityTimestamp := timestamp }
  | .timer u, timestamp => .timer { u with VisibilityTimestamp := timestamp }
  | .historyReplication u, timestamp =>
      .historyReplication { u with VisibilityTimestamp := timestamp }

/-- `Task.GetKey()`: StartChildExecutionTask from the source; the other
variants are modelled from the spec ("GetKey() for Immediate categories
returns (epoch-zero, TaskID); for Scheduled categories returns
(VisibilityTimestamp, TaskID)"). -/
def Task.GetKey : Task → Key
  | .startChild u => u.GetKey
  | .syncActivity u => { FireTime := 0, TaskID := u.TaskID }
  | .timer u => { FireTime := u.VisibilityTimestamp, TaskID := u.TaskID }
  | .historyReplication u => { FireTime := 0, TaskID := u.TaskID }

/-- The embedded `WorkflowKey` field every variant carries. -/
def Task.GetWorkflowKey : Task → WorkflowKey
  | .startChild u => u.WorkflowKey
  | .syncActivity u => u.WorkflowKey
  | .timer u => u.WorkflowKey
  | .historyReplication u => u.WorkflowKey

/-- `setTaskInfo(version, timestamp, insertTasks)` from the source: for
every category key of the map other than Replication, set every task's
version; additionally set the visibility time when the category's type is
Immediate.  Replication-category entries are skipped by `continue`.  The
Go map is embedded as a total function `Category → List Task` (a category
the Go map does not mention simply maps to the empty list), and the
in-place pointer mutation becomes returning the updated map. -/
def setTaskInfo (version : Int) (timestamp : GoTime)
    (insertTasks : Category → List Task) : Category → List Task :=
  fun category =>
    if category = Category.Replication then
      insertTasks category
    else
      (insertTasks category).map fun task =>
        let task := task.SetVersion version
        if category.ctype = CategoryType.Immediate then
          task.SetVisibilityTime timestamp
        else
          task

/-- Modelled from the spec: the slice of `persistencespb.ActivityInfo` read
by `convertSyncActivityInfos` (the persistence proto is not among the files
under review): the activity's version and its schedule ID. -/
structure ActivityInfo where
  Version : Int
  ScheduleId : Int
deriving DecidableEq, Repr

/-- `convertSyncActivityInfos(now, workflowKey, activityInfos, inputs)`
from the source: for each pending ID in `inputs` found in the
`activityInfos` map, append one `SyncActivityTask` carrying the
workflow key, the activity's version and schedule ID, and `now` as the
visibility timestamp; absent IDs contribute nothing.  The Go maps become
a lookup function and a key list; the `TaskID` field, absent from the Go
composite literal, is the Go zero value 0. -/
def convertSyncActivityInfos (now : GoTime) (workflowKey : WorkflowKey)
    (activityInfos : Int → Option ActivityInfo) (inputs : List Int) : List Task :=
  inputs.filterMap fun item =>
    (activityInfos item).map fun activityInfo =>
      Task.syncActivity
        { WorkflowKey := workflowKey
          Version := activityInfo.Version
          ScheduledID := activityInfo.ScheduleId
          VisibilityTimestamp := now
          TaskID := 0 }

/-- `ShardReplicationStatusPerCluster` from the proto: acknowledged
replication task id and its creation (visibility) time. -/
structure ShardReplicationStatusPerCluster where
  acked_task_id : Int
  acked_task_visibility_time : GoTime
deriving DecidableEq, Repr

/-- `HandoverNamespaceInfo` from the proto: the max replication task id
when the namespace transitioned to Handover state. -/
structure HandoverNamespaceInfo where
  handover_replication_task_id : Int
deriving DecidableEq, Repr

/-- `ShardReplicationStatus` from the proto; the proto string-keyed maps
become association lists. -/
structure ShardReplicationStatus where
  shard_id : Int
  max_replication_task_id : Int
  shard_local_time : GoTime
  remote_clusters : List (String × ShardReplicationStatusPerCluster)
  handover_namespaces : List (String × HandoverNamespaceInfo)
deriving DecidableEq, Repr

/-- Written from the spec's words, for comparison with the proto message:
"per-shard snapshot: {ShardID, MaxReplicationTaskID, ShardLocalTime,
map[ClusterName]→{AckedTaskID, AckedTaskVisibilityTime},
map[Namespace]→HandoverInfo}", where HandoverInfo is the replication-task
ID at which the namespace entered hand-over state. -/
def ShardReplicationStatusSpecShape : Type :=
  Int × Int × GoTime × List (String × (Int × GoTime)) × List (String × Int)

/-- The proto message read as the spec's shape. -/
def ShardReplicationStatus.toSpecShape (s : ShardReplicationStatus) :
    ShardReplicationStatusSpecShape :=
  (s.shard_id, s.max_replication_task_id, s.shard_local_time,
    s.remote_clusters.map fun p => (p.1, (p.2.acked_task_id, p.2.acked_task_visibility_time)),
    s.handover_namespaces.map fun p => (p.1, p.2.handover_replication_task_id))

/-- The spec's shape read back as the proto message. -/
def ShardReplicationStatus.ofSpecShape (p : ShardReplicationStatusSpecShape) :
    ShardReplicationStatus :=
  { shard_id := p.1
    max_replication_task_id := p.2.1
    shard_local_time := p.2.2.1
    remote_clusters := p.2.2.2.1.map fun q => (q.1, ⟨q.2.1, q.2.2⟩)
    handover_namespaces := p.2.2.2.2.map fun q => (q.1, ⟨q.2⟩) }

/-- A concrete workflow key for witnesses and counterexamples. -/
def exWK : WorkflowKey :=
  { NamespaceID := "ns", WorkflowID := "wf", RunID := "run" }

/-- A concrete Transfer-category task. -/
def exT1 : Task :=
  Task.startChild
    { WorkflowKey := exWK, VisibilityTimestamp := 1, TaskID := 10,
      TargetNamespaceID := "tn", TargetWorkflowID := "tw", InitiatedID := 3, Version := 2 }

/-- A concrete Timer-category task with business fire time 100. -/
def exT2 : Task :=
  Task.timer
    { WorkflowKey := exWK, VisibilityTimestamp := 100, TaskID := 20,
      Version := 2, EventID := 6 }

/-- A concrete Replication-category task with input visibility timestamp 1
and input version 9. -/
def exT3 : Task :=
  Task.syncActivity
    { WorkflowKey := exWK, VisibilityTimestamp := 1, TaskID := 30,
      Version := 9, ScheduledID := 4 }

/-- A concrete insert-task map `{Transfer: [exT1], Timer: [exT2],
Replication: [exT3]}`. -/
def exMap : Category → List Task
  | Category.Transfer => [exT1]
  | Category.Timer => [exT2]
  | Category.Visibility => []
  | Category.Replication => [exT3]

/-- A concrete activity-info snapshot `{5: {Version: 7, ScheduleId: 5}}`. -/
def exActivityInfos : Int → Option ActivityInfo :=
  fun i => if i = 5 then some { Version := 7, ScheduleId := 5 } else none

/-- The one task `convertSyncActivityInfos 3 exWK exActivityInfos [5, 9]`
emits. -/
def exSyncTask : Task :=
  Task.syncActivity
    { WorkflowKey := exWK, Version := 7, ScheduledID := 5,
      VisibilityTimestamp := 3, TaskID := 0 }

theorem Task.getVersion_setVersion (t : Task) (version : Int) :
    (t.SetVersion version).GetVersion = version := by
  cases t <;> rfl

theorem Task.getVersion_setVisibilityTime (t : Task) (timestamp : GoTime) :
    (t.SetVisibilityTime timestamp).GetVersion = t.GetVersion := by
  cases t <;> rfl

theorem Task.getVisibilityTime_setVisibilityTime (t : Task) (timestamp : GoTime) :
    (t.SetVisibilityTime timestamp).GetVisibilityTime = timestamp := by
  cases t <;> rfl

theorem Task.getVisibilityTime_setVersion (t : Task) (version : Int) :
    (t.SetVersion version).GetVisibilityTime = t.GetVisibilityTime := by
  cases t <;> rfl

theorem map_roundtrip {α β : Type} (f : α → β) (g : β → α) (h : ∀ x, g (f x) = x) :
    ∀ l : List α, (l.map f).map g = l := by
  intro l
  induction l with
  | nil => rfl
  | cons x t ih => simp [ih, h]

/-- C1: for every insert-task map and every mutation version, applying
`setTaskInfo` leaves the `Version` of every Replication-category task
unchanged from its input value (it is not forced to the mutation's
version). -/
theorem setTaskInfo_replication_version_unchanged :
    ∀ (version : Int) (timestamp : GoTime) (insertTasks : Category → List Task),
      (setTaskInfo version timestamp insertTasks Category.Replication).map Task.GetVersion
        = (insertTasks Category.Replication).map Task.GetVersion := by
  intro version timestamp insertTasks
  simp [setTaskInfo]

/-- C9: `setTaskInfo` leaves every Replication-category task entirely
unchanged: the Replication entry of the map is returned exactly as it came
in, so every field of every task under it retains its input value. -/
theorem setTaskInfo_replication_untouched :
    ∀ (version : Int) (timestamp : GoTime) (insertTasks : Category → List Task),
      setTaskInfo version timestamp insertTasks Category.Replication
        = insertTasks Category.Replication := by
  intro version timestamp insertTasks
  simp [setTaskInfo]

/-- C2: for every insert-task map and every mutation version, after
`setTaskInfo` every task in every category other than Replication has
`Version` equal to the mutation's version. -/
theorem setTaskInfo_nonreplication_version_stamped
    (version : Int) (timestamp : GoTime) (insertTasks : Category → List Task)
    (category : Category) (hc : category ≠ Category.Replication) :
    ∀ t ∈ setTaskInfo version timestamp insertTasks category,
      t.GetVersion = version := by
  intro t ht
  simp only [setTaskInfo, if_neg hc, List.mem_map] at ht
  obtain ⟨s, _, rfl⟩ := ht
  by_cases h : category.ctype = CategoryType.Immediate <;>
    simp [h, Task.getVersion_setVersion, Task.getVersion_setVisibilityTime]

theorem setTaskInfo_nonreplication_version_stamped_witness :
    Task.GetVersion (Task.SetVisibilityTime (Task.SetVersion exT1 5) 7) = 5 :=
  setTaskInfo_nonreplication_version_stamped 5 7 exMap Category.Transfer
    (by decide) (Task.SetVisibilityTime (Task.SetVersion exT1 5) 7) (by decide)

/-- C3: after `setTaskInfo` with commit time `timestamp`, every task in a
category whose type is Immediate, other than Replication, has
`VisibilityTimestamp` equal to `timestamp`, while every task in a
Scheduled category (e.g. Timer) keeps its input `VisibilityTimestamp`
unchanged. -/
theorem setTaskInfo_visibility_stamping :
    ∀ (version : Int) (timestamp : GoTime) (insertTasks : Category → List Task)
      (category : Category),
      (category ≠ Category.Replication →
        category.ctype = CategoryType.Immediate →
        ∀ t ∈ setTaskInfo version timestamp insertTasks category,
          t.GetVisibilityTime = timestamp) ∧
      (category.ctype = CategoryType.Scheduled →
        (setTaskInfo version timestamp insertTasks category).map Task.GetVisibilityTime
          = (insertTasks category).map Task.GetVisibilityTime) := by
  intro version timestamp insertTasks category
  constructor
  · intro hc him t ht
    simp only [setTaskInfo, if_neg hc, List.mem_map] at ht
    obtain ⟨s, _, rfl⟩ := ht
    simp [him, Task.getVisibilityTime_setVisibilityTime]
  · intro hsc
    by_cases hc : category = Category.Replication
    · subst hc
      simp [setTaskInfo]
    · simp only [setTaskInfo, if_neg hc, hsc, List.map_map]
      simp [Function.comp_def, Task.getVisibilityTime_setVersion]

/-- C4 counterexample: with mutation version 2 and commit time 7, the
Replication entry `[exT3]` of `exMap` comes out of `setTaskInfo` with
visibility timestamp 1 (its input value), not the commit time 7, even
though Replication is an Immediate-type category: the claim that a
Replication-category task ends with `VisibilityTimestamp == T` is false. -/
theorem setTaskInfo_replication_visibility_cex :
    (setTaskInfo 2 7 exMap Category.Replication).map Task.GetVisibilityTime = [1] ∧
      (1 : GoTime) ≠ 7 := by
  constructor
  · decide
  · decide

/-- C4 amended: after `setTaskInfo`, a Replication-category task's
`VisibilityTimestamp` is unchanged from its input value — it is NOT set to
the commit time, because `setTaskInfo` skips the Replication category
entirely — even though Replication is an Immediate-type category. -/
theorem setTaskInfo_replication_visibility_unchanged :
    ∀ (version : Int) (timestamp : GoTime) (insertTasks : Category → List Task),
      (setTaskInfo version timestamp insertTasks Category.Replication).map
          Task.GetVisibilityTime
        = (insertTasks Category.Replication).map Task.GetVisibilityTime ∧
      Category.ctype Category.Replication = CategoryType.Immediate := by
  intro version timestamp insertTasks
  exact ⟨by simp [setTaskInfo], rfl⟩

/-- C5: `convertSyncActivityInfos` emits exactly one SyncActivity task per
pending ID present in the activity snapshot — carrying that activity's
`Version` and `ScheduleId` (and the call's `workflowKey` and `now`) — and
emits no task for any pending ID absent from the snapshot: the output
length counts exactly the present IDs, and every output task arises from a
present pending ID. -/
theorem convertSyncActivityInfos_characterization :
    ∀ (now : GoTime) (workflowKey : WorkflowKey)
      (activityInfos : Int → Option ActivityInfo) (inputs : List Int),
      (convertSyncActivityInfos now workflowKey activityInfos inputs).length
        = inputs.countP (fun item => (activityInfos item).isSome) ∧
      ∀ t : Task, t ∈ convertSyncActivityInfos now workflowKey activityInfos inputs ↔
        ∃ item ∈ inputs, ∃ a : ActivityInfo, activityInfos item = some a ∧
          t = Task.syncActivity
            { WorkflowKey := workflowKey
              Version := a.Version
              ScheduledID := a.ScheduleId
              VisibilityTimestamp := now
              TaskID := 0 } := by
  intro now workflowKey activityInfos inputs
  constructor
  · induction inputs with
    | nil => rfl
    | cons head tail ih =>
      simp only [convertSyncActivityInfos, List.filterMap_cons, List.countP_cons] at ih ⊢
      cases h : activityInfos head <;> simp [h, ih]
  · intro t
    simp only [convertSyncActivityInfos, List.mem_filterMap, Option.map_eq_some']
    constructor
    · rintro ⟨item, hmem, a, ha, rfl⟩
      exact ⟨item, hmem, a, ha, rfl⟩
    · rintro ⟨item, hmem, a, ha, rfl⟩
      exact ⟨item, hmem, a, ha, rfl⟩

/-- C6: every Immediate-category task's `GetKey()` is the pair
(epoch-zero, TaskID) — its `FireTime` is the fixed epoch-zero sentinel
regardless of the task's `VisibilityTimestamp` and its `TaskID` component
is the task's `TaskID` — and in particular every
`StartChildExecutionTask` is of the Immediate category Transfer. -/
theorem task_getKey_immediate :
    (∀ t : Task, (Task.GetCategory t).ctype = CategoryType.Immediate →
      t.GetKey = { FireTime := 0, TaskID := t.GetTaskID }) ∧
    (∀ u : StartChildExecutionTask,
      Task.GetCategory (Task.startChild u) = Category.Transfer ∧
      (Category.Transfer).ctype = CategoryType.Immediate) := by
  constructor
  · intro t h
    cases t with
    | startChild u => rfl
    | syncActivity u => rfl
    | timer u => simp [Task.GetCategory, Category.ctype] at h
    | historyReplication u => rfl
  · intro u
    exact ⟨rfl, rfl⟩

/-- C7: for `StartChildExecutionTask`, each of `SetVersion`, `SetTaskID`
and `SetVisibilityTime` mutates only its own field, leaving the
`WorkflowKey`, the payload fields and the other two settable fields
unchanged; the getters (`GetKey`, `GetCategory`, `GetVersion`,
`GetTaskID`, `GetVisibilityTime`) are pure reads of the record, which in
this functional embedding is the strongest expressible form of "no side
effects at all". -/
theorem startChildExecutionTask_frame :
    ∀ (u : StartChildExecutionTask) (version id : Int) (timestamp : GoTime),
      ((u.SetVersion version).Version = version ∧
        (u.SetVersion version).WorkflowKey = u.WorkflowKey ∧
        (u.SetVersion version).VisibilityTimestamp = u.VisibilityTimestamp ∧
        (u.SetVersion version).TaskID = u.TaskID ∧
        (u.SetVersion version).TargetNamespaceID = u.TargetNamespaceID ∧
        (u.SetVersion version).TargetWorkflowID = u.TargetWorkflowID ∧
        (u.SetVersion version).InitiatedID = u.InitiatedID) ∧
      ((u.SetTaskID id).TaskID = id ∧
        (u.SetTaskID id).WorkflowKey = u.WorkflowKey ∧
        (u.SetTaskID id).VisibilityTimestamp = u.VisibilityTimestamp ∧
        (u.SetTaskID id).Version = u.Version ∧
        (u.SetTaskID id).TargetNamespaceID = u.TargetNamespaceID ∧
        (u.SetTaskID id).TargetWorkflowID = u.TargetWorkflowID ∧
        (u.SetTaskID id).InitiatedID = u.InitiatedID) ∧
      ((u.SetVisibilityTime timestamp).VisibilityTimestamp = timestamp ∧
        (u.SetVisibilityTime timestamp).WorkflowKey = u.WorkflowKey ∧
        (u.SetVisibilityTime timestamp).TaskID = u.TaskID ∧
        (u.SetVisibilityTime timestamp).Version = u.Version ∧
        (u.SetVisibilityTime timestamp).TargetNamespaceID = u.TargetNamespaceID ∧
        (u.SetVisibilityTime timestamp).TargetWorkflowID = u.TargetWorkflowID ∧
        (u.SetVisibilityTime timestamp).InitiatedID = u.InitiatedID) ∧
      (u.GetKey = { FireTime := 0, TaskID := u.TaskID } ∧
        u.GetCategory = Category.Transfer ∧
        u.GetVersion = u.Version ∧
        u.GetTaskID = u.TaskID ∧
        u.GetVisibilityTime = u.VisibilityTimestamp) := by
  intro u version id timestamp
  exact ⟨⟨rfl, rfl, rfl, rfl, rfl, rfl, rfl⟩,
    ⟨rfl, rfl, rfl, rfl, rfl, rfl, rfl⟩,
    ⟨rfl, rfl, rfl, rfl, rfl, rfl, rfl⟩,
    ⟨rfl, rfl, rfl, rfl, rfl⟩⟩

/-- C8: the proto message `ShardReplicationStatus` consists exactly of a
shard ID, the shard's maximum replication task ID, the shard-local time, a
map from remote cluster name to (acknowledged task ID, acknowledged-task
visibility time), and a map from namespace to handover info recording the
replication-task ID at which the namespace entered hand-over state: the
message and the spec's shape are in bijection, each direction inverting
the other. -/
theorem shardReplicationStatus_shape :
    (∀ s : ShardReplicationStatus,
      ShardReplicationStatus.ofSpecShape s.toSpecShape = s) ∧
    (∀ p : ShardReplicationStatusSpecShape,
      (ShardReplicationStatus.ofSpecShape p).toSpecShape = p) := by
  constructor
  · intro s
    obtain ⟨a, b, c, rc, hn⟩ := s
    simp only [ShardReplicationStatus.toSpecShape, ShardReplicationStatus.ofSpecShape]
    rw [map_roundtrip _ _ (fun x => rfl) rc, map_roundtrip _ _ (fun x => rfl) hn]
  · intro p
    obtain ⟨a, b, c, rc, hn⟩ := p
    simp only [ShardReplicationStatus.toSpecShape, ShardReplicationStatus.ofSpecShape]
    rw [map_roundtrip _ _ (fun x => rfl) rc, map_roundtrip _ _ (fun x => rfl) hn]

/-- C10: every SyncActivity task emitted by `convertSyncActivityInfos` has
its `VisibilityTimestamp` set to the `now` argument and its `WorkflowKey`
set to the `workflowKey` argument of the call. -/
theorem convertSyncActivityInfos_stamps
    (now : GoTime) (workflowKey : WorkflowKey)
    (activityInfos : Int → Option ActivityInfo) (inputs : List Int) :
    ∀ t ∈ convertSyncActivityInfos now workflowKey activityInfos inputs,
      t.GetVisibilityTime = now ∧ t.GetWorkflowKey = workflowKey := by
  intro t ht
  simp only [convertSyncActivityInfos, List.mem_filterMap, Option.map_eq_some'] at ht
  obtain ⟨item, _, a, _, rfl⟩ := ht
  exact ⟨rfl, rfl⟩

theorem convertSyncActivityInfos_stamps_witness :
    Task.GetVisibilityTime exSyncTask = 3 ∧ Task.GetWorkflowKey exSyncTask = exWK :=
  convertSyncActivityInfos_stamps 3 exWK exActivityInfos [5, 9] exSyncTask (by decide)

end Temporal
